import Mathlib

/-!
# libpointmatcher data-point filters: parameter declarations and sampler build data

A shallow embedding of `pointmatcher/DataPointsFilters.h` and
`pointmatcher/DataPointsFilters/Compression.h`:

* the `availableParameters()` tables of every filter, entry by entry, with the
  strings exactly as they are written in the headers;
* `SamplingSurfaceNormalDataPointsFilter::BuildData` (its constructor) and
  `SamplingSurfaceNormalDataPointsFilter::CompareDim` (its call operator).

The headers only declare the tables; the code that reads the strings and checks a
value against a declared minimum and maximum (`Parametrizable`) and the matrix
type (`PointMatcher<T>::Matrix`) live in files that are not part of the sources.
Those parts are modelled from the specification and are marked as such.
-/

set_option linter.dupNamespace false

namespace PointMatcher

/-! ## Numeric values of parameter strings -/

/-- A decimal literal `mant * 10 ^ exp`, kept as two integers. -/
structure Decimal where
  mant : Int
  exp : Int
deriving DecidableEq, Repr

/-- What a parameter string denotes: a decimal number or `inf`. -/
inductive Literal where
  | dec (d : Decimal)
  | inf
deriving DecidableEq, Repr

/-- A parameter value: a rational number or plus infinity. -/
inductive Scalar where
  | fin (q : ℚ)
  | inf
deriving DecidableEq

namespace Scalar

/-- The order on values: every value is below `inf`, and `inf` is below nothing finite. -/
protected def le : Scalar → Scalar → Prop
  | _, Scalar.inf => True
  | Scalar.inf, Scalar.fin _ => False
  | Scalar.fin a, Scalar.fin b => a ≤ b

instance : LE Scalar := ⟨Scalar.le⟩

instance decLe : (a b : Scalar) → Decidable (a ≤ b)
  | Scalar.fin _, Scalar.inf => isTrue trivial
  | Scalar.inf, Scalar.inf => isTrue trivial
  | Scalar.inf, Scalar.fin _ => isFalse (fun h => h)
  | Scalar.fin a, Scalar.fin b => inferInstanceAs (Decidable (a ≤ b))

end Scalar

/-- The rational number a decimal literal stands for. -/
def Decimal.toRat (d : Decimal) : ℚ := (d.mant : ℚ) * (10 : ℚ) ^ d.exp

/-- The value a literal stands for. -/
def Literal.toScalar : Literal → Scalar
  | Literal.dec d => Scalar.fin d.toRat
  | Literal.inf => Scalar.inf

/-- The value of a decimal digit character. -/
def digitVal (c : Char) : Option Nat :=
  if '0' ≤ c ∧ c ≤ '9' then some (c.toNat - '0'.toNat) else none

/-- Reads a run of digits: returns the accumulated number, how many digits were read,
and the rest of the input. -/
def readDigits : List Char → Nat → Nat → Nat × Nat × List Char
  | [], acc, n => (acc, n, [])
  | c :: cs, acc, n =>
    match digitVal c with
    | some d => readDigits cs (acc * 10 + d) (n + 1)
    | none => (acc, n, c :: cs)

/-- Reads an optional sign: `true` when the number is negative. -/
def readSign : List Char → Bool × List Char
  | '-' :: cs => (true, cs)
  | '+' :: cs => (false, cs)
  | cs => (false, cs)

/-- Applies a sign to a magnitude. -/
def signed (neg : Bool) (n : Nat) : Int := if neg then -(n : Int) else (n : Int)

/-- Reads the exponent part that may follow the digits of a decimal literal. -/
def readExponent (m : Int) (fracDigits : Nat) : List Char → Option Decimal
  | [] => some ⟨m, -(fracDigits : Int)⟩
  | c :: cs =>
    if c = 'e' ∨ c = 'E' then
      match readSign cs with
      | (eneg, rest) =>
        match readDigits rest 0 0 with
        | (e, k, []) => if k = 0 then none else some ⟨m, signed eneg e - (fracDigits : Int)⟩
        | _ => none
    else none

/-- Reads a decimal literal: sign, digits, optional fraction, optional exponent. -/
def readDecimal (s : List Char) : Option Decimal :=
  match readSign s with
  | (neg, s1) =>
    match readDigits s1 0 0 with
    | (ip, n1, '.' :: s2) =>
      (match readDigits s2 ip 0 with
       | (m, n2, s3) => if n1 + n2 = 0 then none else readExponent (signed neg m) n2 s3)
    | (ip, n1, s2) => if n1 = 0 then none else readExponent (signed neg ip) 0 s2

/-- Modelled from the spec: the type-specific parser of a parameter string (the
lexical cast behind `Parametrizable::Comp`), which is not in the sources. A
string is read as a decimal number, and `inf` as plus infinity. -/
def readScalar (s : String) : Option Literal :=
  if s = "inf" then some Literal.inf else (readDecimal s.toList).map Literal.dec

/-! ## Parameter declarations -/

/-- The comparison function a declaration names: `&P::Comp<int>`, `&P::Comp<unsigned>`
or `&P::Comp<T>`. -/
inductive LexicalComparison where
  | int
  | unsigned
  | scalar
deriving DecidableEq, Repr

/-- Modelled from the spec: the entry type `Parametrizable::ParameterDoc`, declared
outside the sources. An entry holds the name, the documentation, the default,
and, when it is bounded, the minimum, the maximum and the comparison. The
three-field form of the headers leaves the bounds empty and has no comparison. -/
structure ParameterDoc where
  name : String
  doc : String
  defaultValue : String
  minValue : String
  maxValue : String
  comp : Option LexicalComparison
deriving DecidableEq, Repr

/-- The six-field form of an entry. -/
def ParameterDoc.bounded (name doc defaultValue minValue maxValue : String)
    (comp : LexicalComparison) : ParameterDoc :=
  ⟨name, doc, defaultValue, minValue, maxValue, some comp⟩

/-- The three-field form of an entry. -/
def ParameterDoc.plain (name doc defaultValue : String) : ParameterDoc :=
  ⟨name, doc, defaultValue, "", "", none⟩

/-- The table type returned by `availableParameters()`. -/
abbrev ParametersDoc := List ParameterDoc

/-- Modelled from the spec: the range check of `Parametrizable`, which is not in
the sources. A value passes an entry without comparison; it passes a bounded
entry when it is neither below the declared minimum nor above the declared
maximum. -/
def ParameterDoc.accepts (d : ParameterDoc) (v : Scalar) : Bool :=
  match d.comp with
  | none => true
  | some _ =>
    match readScalar d.minValue, readScalar d.maxValue with
    | some lo, some hi => decide (lo.toScalar ≤ v) && decide (v ≤ hi.toScalar)
    | _, _ => false

/-- The entry a table declares under a name. -/
def findDoc (docs : ParametersDoc) (name : String) : Option ParameterDoc :=
  docs.find? (fun d => d.name == name)

/-- Modelled from the spec: a value given for a named parameter is within the
declared bounds. An unknown name is refused. -/
def inBounds (docs : ParametersDoc) (name : String) (v : Scalar) : Bool :=
  match findDoc docs name with
  | none => false
  | some d => d.accepts v

/-- The declared minimum and maximum of a named parameter, read as literals. -/
def boundsOf (docs : ParametersDoc) (name : String) : Option (Literal × Literal) :=
  match findDoc docs name with
  | none => none
  | some d =>
    match d.comp, readScalar d.minValue, readScalar d.maxValue with
    | some _, some lo, some hi => some (lo, hi)
    | _, _, _ => none

/-- The declared default of an entry lies within its declared bounds. Entries
without comparison have no bounds to respect. -/
def ParameterDoc.defaultInBounds (d : ParameterDoc) : Bool :=
  match d.comp with
  | none => true
  | some _ =>
    match readScalar d.defaultValue with
    | some v => d.accepts v.toScalar
    | none => false

/-- Comparison of two decimal literals on integers: both mantissas are brought to
the smaller exponent. -/
def Decimal.leb (a b : Decimal) : Bool :=
  decide (a.mant * 10 ^ (a.exp - min a.exp b.exp).toNat
    ≤ b.mant * 10 ^ (b.exp - min a.exp b.exp).toNat)

/-- Comparison of two literals on integers. -/
def Literal.leb : Literal → Literal → Bool
  | _, Literal.inf => true
  | Literal.inf, Literal.dec _ => false
  | Literal.dec a, Literal.dec b => a.leb b

/-- The check of `defaultInBounds`, carried out on integers. -/
def ParameterDoc.defaultCheck (d : ParameterDoc) : Bool :=
  match d.comp with
  | none => true
  | some _ =>
    match readScalar d.defaultValue, readScalar d.minValue, readScalar d.maxValue with
    | some v, some lo, some hi => lo.leb v && v.leb hi
    | _, _, _ => false

/-! ## The tables of `DataPointsFilters.h` -/

namespace DataPointsFiltersImpl

open ParameterDoc LexicalComparison

namespace MaxDistDataPointsFilter

/-- The table `MaxDistDataPointsFilter::availableParameters()`. -/
def availableParameters : ParametersDoc := [
  bounded "dim" "dimension on which the filter will be applied. x=0, y=1, z=2, radius=-1" "-1" "-1" "2" int,
  bounded "maxDist" "maximum distance authorized. All points beyond that will be filtered." "1" "0" "inf" scalar
]

end MaxDistDataPointsFilter

namespace MinDistDataPointsFilter

/-- The table `MinDistDataPointsFilter::availableParameters()`. -/
def availableParameters : ParametersDoc := [
  bounded "dim" "dimension on which the filter will be applied. x=0, y=1, z=2, all=3" "3" "0" "2147483647" unsigned,
  bounded "minDist" "minimum distance authorized. All points before that will be filtered." "1" "0" "inf" scalar
]

end MinDistDataPointsFilter

namespace MaxQuantileOnAxisDataPointsFilter

/-- The table `MaxQuantileOnAxisDataPointsFilter::availableParameters()`. -/
def availableParameters : ParametersDoc := [
  bounded "dim" "dimension on which the filter will be applied. x=0, y=1, z=2" "0" "0" "2147483647" unsigned,
  bounded "ratio" "maximum quantile authorized. All points beyond that will be filtered." "0.5" "0.0000001" "0.9999999" scalar
]

end MaxQuantileOnAxisDataPointsFilter

namespace UniformizeDensityDataPointsFilter

/-- The table `UniformizeDensityDataPointsFilter::availableParameters()`. -/
def availableParameters : ParametersDoc := [
  bounded "ratio" "targeted reduction ratio" "0.5" "0.0000001" "0.9999999" scalar,
  bounded "nbBin" "number of bin used to estimate the probability distribution of the density." "1" "1" "2147483647" unsigned
]

end UniformizeDensityDataPointsFilter

namespace SurfaceNormalDataPointsFilter

/-- The table `SurfaceNormalDataPointsFilter::availableParameters()`. -/
def availableParameters : ParametersDoc := [
  bounded "knn" "number of nearest neighbors to consider, including the point itself" "5" "3" "2147483647" unsigned,
  bounded "epsilon" "approximation to use for the nearest-neighbor search" "0" "0" "inf" scalar,
  plain "keepNormals" "whether the normals should be added as descriptors to the resulting cloud" "1",
  plain "keepDensities" "whether the point densities should be added as descriptors to the resulting cloud" "0",
  plain "keepEigenValues" "whether the eigen values should be added as descriptors to the resulting cloud" "0",
  plain "keepEigenVectors" "whether the eigen vectors should be added as descriptors to the resulting cloud" "0",
  plain "keepMatchedIds" "whethen the identifiers of matches points should be added as descriptors to the resulting cloud" "0"
]

end SurfaceNormalDataPointsFilter

namespace SamplingSurfaceNormalDataPointsFilter

/-- The table `SamplingSurfaceNormalDataPointsFilter::availableParameters()`. -/
def availableParameters : ParametersDoc := [
  bounded "binSize" "limit over which a box is splitted in two" "7" "3" "2147483647" unsigned,
  plain "averageExistingDescriptors" "whether the filter keep the existing point descriptors and average them or should it drop them" "1",
  plain "keepNormals" "whether the normals should be added as descriptors to the resulting cloud" "1",
  plain "keepDensities" "whether the point densities should be added as descriptors to the resulting cloud" "0",
  plain "keepEigenValues" "whether the eigen values should be added as descriptors to the resulting cloud" "0",
  plain "keepEigenVectors" "whether the eigen vectors should be added as descriptors to the resulting cloud" "0"
]

end SamplingSurfaceNormalDataPointsFilter

namespace RandomSamplingDataPointsFilter

/-- The table `RandomSamplingDataPointsFilter::availableParameters()`. -/
def availableParameters : ParametersDoc := [
  bounded "prob" "probability to keep a point, one over decimation factor " "0.75" "0" "1" scalar
]

end RandomSamplingDataPointsFilter

namespace FixstepSamplingDataPointsFilter

/-- The table `FixstepSamplingDataPointsFilter::availableParameters()`. -/
def availableParameters : ParametersDoc := [
  bounded "startStep" "initial number of point to skip (initial decimation factor)" "10" "0.0000001" "inf" scalar,
  bounded "endStep" "maximal or minimal number of points to skip (final decimation factor)" "10" "0.0000001" "inf" scalar,
  bounded "stepMult" "multiplication factor to compute the new decimation factor for each iteration" "1" "0.0000001" "inf" scalar
]

end FixstepSamplingDataPointsFilter

end DataPointsFiltersImpl

/-! ## The table of `DataPointsFilters/Compression.h` -/

namespace CompressionDataPointsFilter

open ParameterDoc LexicalComparison

/-- The table `CompressionDataPointsFilter::availableParameters()`. -/
def availableParameters : ParametersDoc := [
  bounded "knn" "number of nearest neighbors to consider in the reference" "10" "1" "2147483647" unsigned,
  bounded "maxDist" "maximum distance to consider for neighbors" "inf" "0" "inf" scalar,
  bounded "epsilon" "Step of discretization for the angle spaces" "0.09817477042" "0" "3.14159265359" scalar,
  bounded "maxIterationCount" "Maximum number of iterations" "5" "0" "2147483647" unsigned,
  bounded "initialVariance" "Variance on individual point positions (isotropic)" "9e-4" "1e-6" "inf" scalar,
  bounded "maxDeviation" "Maximum distance from the mean for a point to represent a distribution." "0.3" "0.0" "inf" scalar,
  plain "keepNormals" "whether the normals should be added as descriptors to the resulting cloud" "0",
  plain "keepEigenValues" "whether the eigen values should be added as descriptors to the resulting cloud" "0",
  plain "keepEigenVectors" "whether the eigen vectors should be added as descriptors to the resulting cloud" "0"
]

end CompressionDataPointsFilter

/-- Every table declared in the two headers, in source order. The filters
`IdentityDataPointsFilter` and `OrientNormalsDataPointsFilter` declare none. -/
def allAvailableParameters : List ParametersDoc := [
  DataPointsFiltersImpl.MaxDistDataPointsFilter.availableParameters,
  DataPointsFiltersImpl.MinDistDataPointsFilter.availableParameters,
  DataPointsFiltersImpl.MaxQuantileOnAxisDataPointsFilter.availableParameters,
  DataPointsFiltersImpl.UniformizeDensityDataPointsFilter.availableParameters,
  DataPointsFiltersImpl.SurfaceNormalDataPointsFilter.availableParameters,
  DataPointsFiltersImpl.SamplingSurfaceNormalDataPointsFilter.availableParameters,
  DataPointsFiltersImpl.RandomSamplingDataPointsFilter.availableParameters,
  DataPointsFiltersImpl.FixstepSamplingDataPointsFilter.availableParameters,
  CompressionDataPointsFilter.availableParameters
]

/-! ## Build data of the sampling surface-normal filter -/

/-- Modelled from the spec: the matrix type `PointMatcher<T>::Matrix`, declared
outside the sources. Column `j` is point `j` and row `i` its coordinate `i`.
Coefficient access `m(i, j)` is not range checked, so `coeff` is defined at every
pair of indices: outside `rows x cols` it stands for what the memory holds. -/
structure Matrix (α : Type) where
  rows : Nat
  cols : Nat
  coeff : Int → Int → α

/-- The sized constructor `Matrix(rows, cols)`. It allocates and does not
initialise: `mem` is what the fresh storage holds. A negative size is refused. -/
def Matrix.sized {α : Type} (rows cols : Int) (mem : Int → Int → α) : Option (Matrix α) :=
  if 0 ≤ rows ∧ 0 ≤ cols then some ⟨rows.toNat, cols.toNat, mem⟩ else none

/-- A matrix given by its columns (one list of coordinates per point); `pad` is
read outside of them. -/
def Matrix.ofColumns {α : Type} (rows : Nat) (points : List (List α)) (pad : α) : Matrix α :=
  ⟨rows, points.length, fun i j =>
    if 0 ≤ i ∧ 0 ≤ j then ((points[j.toNat]?).bind (fun p => p[i.toNat]?)).getD pad else pad⟩

/-- The type `std::vector<int>` as the constructor uses it: `size` elements at the
front of an allocated store of `capacity` slots. A slot is `none` until it is
written. -/
structure Indices where
  size : Nat
  capacity : Nat
  slots : Nat → Option Int

namespace Indices

/-- A default-constructed vector: no element, no storage. -/
def empty : Indices := ⟨0, 0, fun _ => none⟩

/-- The call `reserve(n)`: grows the store to `n` slots when it is smaller. The
elements and `size` are kept. -/
def reserve (v : Indices) (n : Nat) : Indices :=
  if v.capacity < n then { v with capacity := n } else v

/-- The assignment `v[i] = x`. The subscript is not checked against `size`: the
write lands in slot `i` of the store and leaves `size` alone. A slot outside the
store cannot be written. -/
def assign (v : Indices) (i : Nat) (x : Int) : Option Indices :=
  if i < v.capacity then
    some { v with slots := fun k => if k = i then some x else v.slots k }
  else none

/-- The elements of the vector: the first `size` slots. -/
def toList (v : Indices) : List (Option Int) := (List.range v.size).map v.slots

end Indices

namespace DataPointsFiltersImpl

namespace SamplingSurfaceNormalDataPointsFilter

/-- The struct `BuildData`, fields in source order. -/
structure BuildData (α : Type) where
  indices : Indices
  inputFeatures : Matrix α
  inputDescriptors : Matrix α
  outputFeatures : Matrix α
  outputDescriptors : Matrix α
  outputInsertionPoint : Int

/-- The loop `for (int i = 0; i < pointsCount; ++i) indices[i] = i;`. -/
def fillIndices (indices : Indices) (pointsCount : Int) : Option Indices :=
  (List.range pointsCount.toNat).foldlM (fun v i => v.assign i (i : Int)) indices

/-- The constructor `BuildData(inputFeatures, inputDescriptors, finalDescDim)`:
the member initialisers, then `indices.reserve(pointsCount)` and the loop. The
two output matrices are allocated without initialisation, `memF` and `memD` being
what their storage holds. -/
def BuildData.BuildData {α : Type} (inputFeatures inputDescriptors : Matrix α)
    (finalDescDim : Int) (memF memD : Int → Int → α) : Option (BuildData α) :=
  match Matrix.sized (inputFeatures.rows : Int) (inputFeatures.cols : Int) memF,
        Matrix.sized finalDescDim (inputFeatures.cols : Int) memD with
  | some outputFeatures, some outputDescriptors =>
    let pointsCount : Int := (inputFeatures.cols : Int)
    match fillIndices (Indices.empty.reserve pointsCount.toNat) pointsCount with
    | some indices =>
      some ⟨indices, inputFeatures, inputDescriptors, outputFeatures, outputDescriptors, 0⟩
    | none => none
  | _, _ => none

/-- The struct `CompareDim`: the axis and the build data it reads. -/
structure CompareDim (α : Type) where
  dim : Int
  buildData : BuildData α

/-- The call operator `CompareDim::operator()(p0, p1)`. -/
def CompareDim.call {α : Type} [LinearOrder α] (c : CompareDim α) (p0 p1 : Int) : Bool :=
  decide (c.buildData.inputFeatures.coeff c.dim p0 < c.buildData.inputFeatures.coeff c.dim p1)

/-- Two points (0, 5, 7) and (0, 6, 8), equal on axis 0. -/
def twoPoints : Matrix Int := Matrix.ofColumns 3 [[0, 5, 7], [0, 6, 8]] 0

/-- An input without descriptors for two points. -/
def noDescriptors : Matrix Int := Matrix.ofColumns 0 [[], []] 0

/-- Build data whose input is `twoPoints`; the other fields are not read by
`CompareDim`. -/
def twoPointsData : BuildData Int :=
  ⟨Indices.empty, twoPoints, noDescriptors, twoPoints, noDescriptors, 0⟩

end SamplingSurfaceNormalDataPointsFilter

end DataPointsFiltersImpl

end PointMatcher

/-! ## Lemmas on values and bounds -/

namespace PointMatcher

theorem Scalar.fin_le_fin (a b : ℚ) : Scalar.fin a ≤ Scalar.fin b ↔ a ≤ b := Iff.rfl

theorem Scalar.le_inf (a : Scalar) : a ≤ Scalar.inf := by
  cases a <;> trivial

theorem Scalar.not_inf_le_fin (b : ℚ) : ¬ Scalar.inf ≤ Scalar.fin b := fun h => h

theorem Decimal.toRat_eq_shift (d : Decimal) (e : Int) (h : e ≤ d.exp) :
    d.toRat = ((d.mant * 10 ^ (d.exp - e).toNat : Int) : ℚ) * (10 : ℚ) ^ e := by
  have hexp : d.exp = ((d.exp - e).toNat : Int) + e := by omega
  unfold Decimal.toRat
  conv_lhs => rw [hexp]
  rw [zpow_add₀ (by norm_num : (10 : ℚ) ≠ 0), zpow_natCast]
  push_cast
  ring

theorem Decimal.leb_iff_toRat_le (a b : Decimal) : a.leb b = true ↔ a.toRat ≤ b.toRat := by
  have hpos : (0 : ℚ) < (10 : ℚ) ^ (min a.exp b.exp) := zpow_pos (by norm_num) _
  rw [Decimal.toRat_eq_shift a _ (min_le_left _ _), Decimal.toRat_eq_shift b _ (min_le_right _ _),
    mul_le_mul_right hpos, Int.cast_le]
  simp [Decimal.leb]

theorem Literal.leb_iff_toScalar_le (a b : Literal) : a.leb b = true ↔ a.toScalar ≤ b.toScalar := by
  cases a <;> cases b
  · simp only [Literal.leb, Literal.toScalar, Scalar.fin_le_fin]
    exact Decimal.leb_iff_toRat_le _ _
  · simp [Literal.leb, Literal.toScalar, Scalar.le_inf]
  · simp only [Literal.leb, Literal.toScalar]
    constructor
    · intro h
      cases h
    · intro h
      exact absurd h (Scalar.not_inf_le_fin _)
  · simp [Literal.leb, Literal.toScalar, Scalar.le_inf]

/-- The integer check computes `defaultInBounds`. -/
theorem ParameterDoc.defaultInBounds_eq_defaultCheck (d : ParameterDoc) :
    d.defaultInBounds = d.defaultCheck := by
  unfold ParameterDoc.defaultInBounds ParameterDoc.defaultCheck ParameterDoc.accepts
  cases hc : d.comp with
  | none => rfl
  | some c =>
    cases hv : readScalar d.defaultValue with
    | none => rfl
    | some v =>
      cases hlo : readScalar d.minValue with
      | none => rfl
      | some lo =>
        cases hhi : readScalar d.maxValue with
        | none => rfl
        | some hi =>
          simp only
          rw [Bool.eq_iff_iff]
          simp only [Bool.and_eq_true, decide_eq_true_eq, Literal.leb_iff_toScalar_le]

/-- A value is within the bounds of a named parameter exactly when it lies between
the two declared literals. -/
theorem inBounds_iff_of_boundsOf {docs : ParametersDoc} {name : String} {lo hi : Literal}
    (h : boundsOf docs name = some (lo, hi)) (v : Scalar) :
    inBounds docs name v = true ↔ lo.toScalar ≤ v ∧ v ≤ hi.toScalar := by
  unfold boundsOf at h
  unfold inBounds
  cases hd : findDoc docs name with
  | none => rw [hd] at h; cases h
  | some d =>
    rw [hd] at h
    simp only at h ⊢
    unfold ParameterDoc.accepts
    cases hc : d.comp with
    | none => rw [hc] at h; cases h
    | some c =>
      cases hlo : readScalar d.minValue with
      | none => rw [hc, hlo] at h; cases h
      | some lo1 =>
        cases hhi : readScalar d.maxValue with
        | none => rw [hc, hlo, hhi] at h; cases h
        | some hi1 =>
          rw [hc, hlo, hhi] at h
          simp only [Option.some.injEq, Prod.mk.injEq] at h
          obtain ⟨rfl, rfl⟩ := h
          simp only [Bool.and_eq_true, decide_eq_true_eq]

/-- Bounds given by two integer literals: an integer value is accepted exactly when
it lies between them. -/
theorem inBounds_int_iff {docs : ParametersDoc} {name : String} {lo hi : Int}
    (h : boundsOf docs name = some (Literal.dec ⟨lo, 0⟩, Literal.dec ⟨hi, 0⟩)) (n : Int) :
    inBounds docs name (Scalar.fin (n : ℚ)) = true ↔ lo ≤ n ∧ n ≤ hi := by
  rw [inBounds_iff_of_boundsOf h]
  simp only [Literal.toScalar, Decimal.toRat, Scalar.fin_le_fin, zpow_zero, mul_one, Int.cast_le]

end PointMatcher

/-! ## Declared bounds of the filters -/

namespace PointMatcher

open DataPointsFiltersImpl

/-- C1: for every integer `knn`, `knn` lies within the bounds that
`SurfaceNormalDataPointsFilter::availableParameters()` declares for "knn" if and
only if `3 <= knn <= 2147483647`; in particular 0, 1 and 2 are out of range. -/
theorem SurfaceNormal_knn_inBounds_iff :
    (∀ knn : Int,
      inBounds SurfaceNormalDataPointsFilter.availableParameters "knn" (Scalar.fin (knn : ℚ)) = true
        ↔ (3 ≤ knn ∧ knn ≤ 2147483647))
    ∧ inBounds SurfaceNormalDataPointsFilter.availableParameters "knn" (Scalar.fin ((0 : Int) : ℚ)) = false
    ∧ inBounds SurfaceNormalDataPointsFilter.availableParameters "knn" (Scalar.fin ((1 : Int) : ℚ)) = false
    ∧ inBounds SurfaceNormalDataPointsFilter.availableParameters "knn" (Scalar.fin ((2 : Int) : ℚ)) = false := by
  have h : boundsOf SurfaceNormalDataPointsFilter.availableParameters "knn"
      = some (Literal.dec ⟨3, 0⟩, Literal.dec ⟨2147483647, 0⟩) := by decide
  refine ⟨fun knn => inBounds_int_iff h knn, ?_, ?_, ?_⟩ <;>
    · rw [Bool.eq_false_iff, Ne, inBounds_int_iff h]
      omega

/-- C2: for every integer `binSize`, `binSize` lies within the bounds that
`SamplingSurfaceNormalDataPointsFilter::availableParameters()` declares for
"binSize" if and only if `3 <= binSize <= 2147483647`; in particular 0, 1 and 2
are out of range. -/
theorem SamplingSurfaceNormal_binSize_inBounds_iff :
    (∀ binSize : Int,
      inBounds SamplingSurfaceNormalDataPointsFilter.availableParameters "binSize"
          (Scalar.fin (binSize : ℚ)) = true
        ↔ (3 ≤ binSize ∧ binSize ≤ 2147483647))
    ∧ inBounds SamplingSurfaceNormalDataPointsFilter.availableParameters "binSize"
        (Scalar.fin ((0 : Int) : ℚ)) = false
    ∧ inBounds SamplingSurfaceNormalDataPointsFilter.availableParameters "binSize"
        (Scalar.fin ((1 : Int) : ℚ)) = false
    ∧ inBounds SamplingSurfaceNormalDataPointsFilter.availableParameters "binSize"
        (Scalar.fin ((2 : Int) : ℚ)) = false := by
  have h : boundsOf SamplingSurfaceNormalDataPointsFilter.availableParameters "binSize"
      = some (Literal.dec ⟨3, 0⟩, Literal.dec ⟨2147483647, 0⟩) := by decide
  refine ⟨fun n => inBounds_int_iff h n, ?_, ?_, ?_⟩ <;>
    · rw [Bool.eq_false_iff, Ne, inBounds_int_iff h]
      omega

/-- C3: under the bounds declared by `CompressionDataPointsFilter::availableParameters()`,
`knn = 0` is out of range while every `knn` in `1..2147483647` is in range, and
every `maxIterationCount` in `0..2147483647` (0 included) is in range while every
negative value is out of range. -/
theorem Compression_knn_maxIterationCount_bounds :
    inBounds CompressionDataPointsFilter.availableParameters "knn" (Scalar.fin ((0 : Int) : ℚ)) = false
    ∧ (∀ knn : Int, 1 ≤ knn → knn ≤ 2147483647 →
        inBounds CompressionDataPointsFilter.availableParameters "knn" (Scalar.fin (knn : ℚ)) = true)
    ∧ (∀ n : Int, 0 ≤ n → n ≤ 2147483647 →
        inBounds CompressionDataPointsFilter.availableParameters "maxIterationCount"
          (Scalar.fin (n : ℚ)) = true)
    ∧ (∀ n : Int, n < 0 →
        inBounds CompressionDataPointsFilter.availableParameters "maxIterationCount"
          (Scalar.fin (n : ℚ)) = false) := by
  have hk : boundsOf CompressionDataPointsFilter.availableParameters "knn"
      = some (Literal.dec ⟨1, 0⟩, Literal.dec ⟨2147483647, 0⟩) := by decide
  have hm : boundsOf CompressionDataPointsFilter.availableParameters "maxIterationCount"
      = some (Literal.dec ⟨0, 0⟩, Literal.dec ⟨2147483647, 0⟩) := by decide
  refine ⟨?_, ?_, ?_, ?_⟩
  · rw [Bool.eq_false_iff, Ne, inBounds_int_iff hk]
    omega
  · intro knn h1 h2
    exact (inBounds_int_iff hk knn).2 ⟨h1, h2⟩
  · intro n h1 h2
    exact (inBounds_int_iff hm n).2 ⟨h1, h2⟩
  · intro n hn
    rw [Bool.eq_false_iff, Ne, inBounds_int_iff hm]
    omega

/-- Witness of C3 at `knn = 1`, the smallest accepted value. -/
theorem Compression_knn_maxIterationCount_bounds_witness :
    (1 : Int) ≤ 1 ∧ (1 : Int) ≤ 2147483647
    ∧ inBounds CompressionDataPointsFilter.availableParameters "knn"
        (Scalar.fin ((1 : Int) : ℚ)) = true :=
  ⟨by decide, by decide,
    Compression_knn_maxIterationCount_bounds.2.1 1 (by decide) (by decide)⟩

/-- C4: for `MaxQuantileOnAxisDataPointsFilter` and `UniformizeDensityDataPointsFilter`
the declared bounds of "ratio" are `[0.0000001, 0.9999999]`, and every rational
`r` with `r <= 0` or `r >= 1` lies outside them in both filters. -/
theorem ratio_outside_unit_interval_rejected (r : ℚ) (h : r ≤ 0 ∨ 1 ≤ r) :
    boundsOf MaxQuantileOnAxisDataPointsFilter.availableParameters "ratio"
      = some (Literal.dec ⟨1, -7⟩, Literal.dec ⟨9999999, -7⟩)
    ∧ boundsOf UniformizeDensityDataPointsFilter.availableParameters "ratio"
      = some (Literal.dec ⟨1, -7⟩, Literal.dec ⟨9999999, -7⟩)
    ∧ inBounds MaxQuantileOnAxisDataPointsFilter.availableParameters "ratio" (Scalar.fin r) = false
    ∧ inBounds UniformizeDensityDataPointsFilter.availableParameters "ratio" (Scalar.fin r) = false := by
  have hq : boundsOf MaxQuantileOnAxisDataPointsFilter.availableParameters "ratio"
      = some (Literal.dec ⟨1, -7⟩, Literal.dec ⟨9999999, -7⟩) := by decide
  have hu : boundsOf UniformizeDensityDataPointsFilter.availableParameters "ratio"
      = some (Literal.dec ⟨1, -7⟩, Literal.dec ⟨9999999, -7⟩) := by decide
  have key : ¬ ((Literal.dec ⟨1, -7⟩).toScalar ≤ Scalar.fin r
      ∧ Scalar.fin r ≤ (Literal.dec ⟨9999999, -7⟩).toScalar) := by
    simp only [Literal.toScalar, Decimal.toRat, Scalar.fin_le_fin]
    rintro ⟨h1, h2⟩
    norm_num at h1 h2
    rcases h with h | h <;> linarith
  refine ⟨hq, hu, ?_, ?_⟩
  · rw [Bool.eq_false_iff, Ne, inBounds_iff_of_boundsOf hq]
    exact key
  · rw [Bool.eq_false_iff, Ne, inBounds_iff_of_boundsOf hu]
    exact key

/-- Witness of C4 at `r = 1`. -/
theorem ratio_outside_unit_interval_rejected_witness :
    ((1 : ℚ) ≤ 0 ∨ (1 : ℚ) ≤ 1)
    ∧ inBounds MaxQuantileOnAxisDataPointsFilter.availableParameters "ratio" (Scalar.fin 1) = false
    ∧ inBounds UniformizeDensityDataPointsFilter.availableParameters "ratio" (Scalar.fin 1) = false :=
  ⟨Or.inr le_rfl, (ratio_outside_unit_interval_rejected 1 (Or.inr le_rfl)).2.2⟩

/-- C5, the code at the failing inputs: the bounds declared for "dim" are `0` and
`2147483647` in `MinDistDataPointsFilter` and in `MaxQuantileOnAxisDataPointsFilter`,
so `dim = 4` is accepted by the first and `dim = 3` by the second, although
neither is one of the documented choices. The bounds declared for "dim" in
`MaxDistDataPointsFilter` are `-1` and `2`, its documented choices. -/
theorem dim_bounds_accept_undocumented_values :
    boundsOf MinDistDataPointsFilter.availableParameters "dim"
      = some (Literal.dec ⟨0, 0⟩, Literal.dec ⟨2147483647, 0⟩)
    ∧ boundsOf MaxQuantileOnAxisDataPointsFilter.availableParameters "dim"
      = some (Literal.dec ⟨0, 0⟩, Literal.dec ⟨2147483647, 0⟩)
    ∧ boundsOf MaxDistDataPointsFilter.availableParameters "dim"
      = some (Literal.dec ⟨-1, 0⟩, Literal.dec ⟨2, 0⟩)
    ∧ inBounds MinDistDataPointsFilter.availableParameters "dim" (Scalar.fin ((4 : Int) : ℚ)) = true
    ∧ inBounds MaxQuantileOnAxisDataPointsFilter.availableParameters "dim"
        (Scalar.fin ((3 : Int) : ℚ)) = true := by
  have h1 : boundsOf MinDistDataPointsFilter.availableParameters "dim"
      = some (Literal.dec ⟨0, 0⟩, Literal.dec ⟨2147483647, 0⟩) := by decide
  have h2 : boundsOf MaxQuantileOnAxisDataPointsFilter.availableParameters "dim"
      = some (Literal.dec ⟨0, 0⟩, Literal.dec ⟨2147483647, 0⟩) := by decide
  refine ⟨h1, h2, by decide, ?_, ?_⟩
  · exact (inBounds_int_iff h1 4).2 ⟨by decide, by decide⟩
  · exact (inBounds_int_iff h2 3).2 ⟨by decide, by decide⟩

/-- The integer check passes on every entry of every table. -/
theorem defaultCheck_all :
    ∀ t ∈ allAvailableParameters, ∀ d ∈ t, ParameterDoc.defaultCheck d = true := by
  decide

/-- C9: in every table of `DataPointsFilters.h` and `Compression.h`, every entry
declared with a minimum and a maximum has a default, a minimum and a maximum that
read as values (`inf` as plus infinity) with `min <= default <= max`; so the
default of every entry is accepted by the entry. -/
theorem default_within_declared_bounds :
    ∀ t ∈ allAvailableParameters, ∀ d ∈ t,
      (d.comp.isSome = true →
        ∃ lo hi v, readScalar d.minValue = some lo ∧ readScalar d.maxValue = some hi
          ∧ readScalar d.defaultValue = some v
          ∧ lo.toScalar ≤ v.toScalar ∧ v.toScalar ≤ hi.toScalar)
      ∧ d.defaultInBounds = true := by
  intro t ht d hd
  have hcheck := defaultCheck_all t ht d hd
  refine ⟨?_, by rw [ParameterDoc.defaultInBounds_eq_defaultCheck]; exact hcheck⟩
  intro hc
  unfold ParameterDoc.defaultCheck at hcheck
  cases hcomp : d.comp with
  | none => rw [hcomp] at hc; cases hc
  | some c =>
    rw [hcomp] at hcheck
    cases hv : readScalar d.defaultValue with
    | none => rw [hv] at hcheck; cases hcheck
    | some v =>
      cases hlo : readScalar d.minValue with
      | none => rw [hv, hlo] at hcheck; cases hcheck
      | some lo =>
        cases hhi : readScalar d.maxValue with
        | none => rw [hv, hlo, hhi] at hcheck; cases hcheck
        | some hi =>
          rw [hv, hlo, hhi] at hcheck
          simp only [Bool.and_eq_true, Literal.leb_iff_toScalar_le] at hcheck
          exact ⟨lo, hi, v, rfl, rfl, rfl, hcheck.1, hcheck.2⟩

/-- Witness of C9 at the entry "maxDist" of `CompressionDataPointsFilter`, whose
default is `inf`. -/
theorem default_within_declared_bounds_witness :
    CompressionDataPointsFilter.availableParameters ∈ allAvailableParameters
    ∧ ParameterDoc.bounded "maxDist" "maximum distance to consider for neighbors" "inf" "0" "inf"
        LexicalComparison.scalar ∈ CompressionDataPointsFilter.availableParameters
    ∧ (∃ lo hi v, readScalar "0" = some lo ∧ readScalar "inf" = some hi
        ∧ readScalar "inf" = some v ∧ lo.toScalar ≤ v.toScalar ∧ v.toScalar ≤ hi.toScalar)
    ∧ (ParameterDoc.bounded "maxDist" "maximum distance to consider for neighbors" "inf" "0" "inf"
        LexicalComparison.scalar).defaultInBounds = true :=
  ⟨by decide, by decide,
    (default_within_declared_bounds CompressionDataPointsFilter.availableParameters (by decide)
      (ParameterDoc.bounded "maxDist" "maximum distance to consider for neighbors" "inf" "0" "inf"
        LexicalComparison.scalar) (by decide)).1 rfl,
    (default_within_declared_bounds CompressionDataPointsFilter.availableParameters (by decide)
      (ParameterDoc.bounded "maxDist" "maximum distance to consider for neighbors" "inf" "0" "inf"
        LexicalComparison.scalar) (by decide)).2⟩

end PointMatcher

/-! ## Build data and the split comparator -/

namespace PointMatcher

namespace DataPointsFiltersImpl

namespace SamplingSurfaceNormalDataPointsFilter

/-- The loop over `0 .. n-1` on a store of at least `n` slots runs to its end: it
fills slot `k` with `k` for every `k < n`, and changes neither `size` nor
`capacity`. -/
theorem foldlM_assign_range (v : Indices) (n : Nat) (h : n ≤ v.capacity) :
    ∃ w, (List.range n).foldlM (fun u i => u.assign i (i : Int)) v = some w
      ∧ w.size = v.size ∧ w.capacity = v.capacity
      ∧ ∀ k, w.slots k = if k < n then some (k : Int) else v.slots k := by
  induction n with
  | zero => exact ⟨v, rfl, rfl, rfl, fun k => by simp⟩
  | succ n ih =>
    obtain ⟨w, hw, hsize, hcap, hslots⟩ := ih (Nat.le_of_succ_le h)
    have hn : n < w.capacity := by omega
    refine ⟨{ w with slots := fun k => if k = n then some (n : Int) else w.slots k }, ?_,
      hsize, hcap, ?_⟩
    · rw [List.range_succ, List.foldlM_append, hw]
      simp [Indices.assign, hn]
    · intro k
      simp only [hslots]
      by_cases hk : k = n
      · subst hk
        simp
      · have : (k < n + 1) = (k < n) := by
          apply propext
          omega
        simp [hk, this]

/-- The loop of the constructor after `reserve(pointsCount)`. -/
theorem fillIndices_reserve (n : Nat) :
    ∃ w, fillIndices (Indices.empty.reserve ((n : Int).toNat)) (n : Int) = some w
      ∧ w.size = 0 ∧ w.capacity = n
      ∧ ∀ k, w.slots k = if k < n then some (k : Int) else none := by
  have hcap : (Indices.empty.reserve n).capacity = n := by
    unfold Indices.reserve Indices.empty
    split
    · rfl
    · simp only at *
      omega
  have hsize : (Indices.empty.reserve n).size = 0 := by
    unfold Indices.reserve Indices.empty
    split <;> rfl
  have hslots : ∀ k, (Indices.empty.reserve n).slots k = none := by
    intro k
    unfold Indices.reserve Indices.empty
    split <;> rfl
  obtain ⟨w, hw, h1, h2, h3⟩ := foldlM_assign_range (Indices.empty.reserve n) n (le_of_eq hcap.symm)
  refine ⟨w, ?_, by rw [h1, hsize], by rw [h2, hcap], fun k => by rw [h3 k, hslots k]⟩
  unfold fillIndices
  simpa using hw

/-- What the constructor leaves in `indices`, for every input: the store holds
`pointsCount` slots and slot `k` holds `k`, but the vector has `size` 0, so it
has no element. The insertion cursor is 0. -/
theorem BuildData_indices_after_constructor {α : Type} (inputFeatures inputDescriptors : Matrix α)
    (finalDescDim : Int) (memF memD : Int → Int → α) (b : BuildData α)
    (hb : BuildData.BuildData inputFeatures inputDescriptors finalDescDim memF memD = some b) :
    b.indices.size = 0 ∧ b.indices.toList = [] ∧ b.indices.capacity = inputFeatures.cols
      ∧ (∀ k, k < inputFeatures.cols → b.indices.slots k = some (k : Int))
      ∧ b.outputInsertionPoint = 0 := by
  obtain ⟨w, hw, hsize, hcap, hslots⟩ := fillIndices_reserve inputFeatures.cols
  unfold BuildData.BuildData at hb
  cases hF : Matrix.sized (inputFeatures.rows : Int) (inputFeatures.cols : Int) memF with
  | none => rw [hF] at hb; cases hb
  | some oF =>
    cases hD : Matrix.sized finalDescDim (inputFeatures.cols : Int) memD with
    | none => rw [hF, hD] at hb; cases hb
    | some oD =>
      rw [hF, hD] at hb
      simp only [hw, Option.some.injEq] at hb
      subst hb
      refine ⟨hsize, ?_, hcap, ?_, rfl⟩
      · simp [Indices.toList, hsize]
      · intro k hk
        simp [hslots k, hk]

/-- C7, the code at the failing input: for the input `twoPoints` of N = 2 points
the constructor returns build data whose `indices` has size 0 and no element
(not length 2), while slots 0 and 1 of its store hold 0 and 1 and the insertion
cursor is 0. -/
theorem BuildData_indices_size_zero_at_twoPoints :
    twoPoints.cols = 2
    ∧ (BuildData.BuildData twoPoints noDescriptors 0 (fun _ _ => 0) (fun _ _ => 0)).map
        (fun b => (b.indices.size, b.indices.toList, b.indices.capacity,
          b.indices.slots 0, b.indices.slots 1, b.outputInsertionPoint))
      = some (0, [], 2, some 0, some 1, 0) := by
  constructor <;> rfl

/-- C6, counterexample: points 0 and 1 of `twoPoints` are distinct, `0 < 1`, and
have the same coordinate on axis 0, yet `CompareDim(0)(0, 1)` is false. -/
theorem CompareDim_tie_counterexample :
    (0 : Int) < 1
    ∧ twoPointsData.inputFeatures.coeff 0 0 = twoPointsData.inputFeatures.coeff 0 1
    ∧ CompareDim.call ⟨0, twoPointsData⟩ 0 1 = false := by
  decide

/-- C6, amended: `CompareDim(dim)(p0, p1)` is true exactly when the coordinate of
`p0` on `dim` is strictly below that of `p1`; when the two coordinates are equal,
it is false in both directions, whatever the indices. -/
theorem CompareDim_orders_by_coordinate_only {α : Type} [LinearOrder α] (c : CompareDim α)
    (p0 p1 : Int) :
    (c.call p0 p1 = true
      ↔ c.buildData.inputFeatures.coeff c.dim p0 < c.buildData.inputFeatures.coeff c.dim p1)
    ∧ (c.buildData.inputFeatures.coeff c.dim p0 = c.buildData.inputFeatures.coeff c.dim p1 →
        c.call p0 p1 = false ∧ c.call p1 p0 = false) := by
  refine ⟨by simp [CompareDim.call], ?_⟩
  intro h
  simp [CompareDim.call, h]

/-- Witness of the amended C6 at points 0 and 1 of `twoPoints` on axis 0. -/
theorem CompareDim_orders_by_coordinate_only_witness :
    twoPointsData.inputFeatures.coeff 0 0 = twoPointsData.inputFeatures.coeff 0 1
    ∧ CompareDim.call ⟨0, twoPointsData⟩ 0 1 = false
    ∧ CompareDim.call ⟨0, twoPointsData⟩ 1 0 = false :=
  ⟨by decide, (CompareDim_orders_by_coordinate_only ⟨0, twoPointsData⟩ 0 1).2 (by decide)⟩

/-- C10: `CompareDim` is a strict weak ordering on point indices. For every axis
and all indices `a`, `b`, `d`: it is irreflexive, asymmetric and transitive, and
incomparability (neither before the other) is transitive. -/
theorem CompareDim_strict_weak_ordering {α : Type} [LinearOrder α] (c : CompareDim α)
    (a b d : Int) :
    c.call a a = false
    ∧ (c.call a b = true → c.call b a = false)
    ∧ (c.call a b = true → c.call b d = true → c.call a d = true)
    ∧ (c.call a b = false ∧ c.call b a = false → c.call b d = false ∧ c.call d b = false →
        c.call a d = false ∧ c.call d a = false) := by
  simp only [CompareDim.call, decide_eq_true_eq, decide_eq_false_iff_not, lt_irrefl,
    not_false_eq_true, true_and, not_lt]
  refine ⟨fun h => le_of_lt h, fun h1 h2 => lt_trans h1 h2, ?_⟩
  rintro ⟨h1, h2⟩ ⟨h3, h4⟩
  exact ⟨le_trans h3 h1, le_trans h2 h4⟩

/-- Witness of C10 at points 0 and 1 of `twoPoints` on axis 1, where 5 < 6. -/
theorem CompareDim_strict_weak_ordering_witness :
    CompareDim.call ⟨1, twoPointsData⟩ 0 1 = true
    ∧ CompareDim.call ⟨1, twoPointsData⟩ 1 0 = false :=
  ⟨by decide, (CompareDim_strict_weak_ordering ⟨1, twoPointsData⟩ 0 1 0).2.1 (by decide)⟩

end SamplingSurfaceNormalDataPointsFilter

end DataPointsFiltersImpl

end PointMatcher
